import Mathlib

/-
Verification of the Average Calculator script (src/example/buggy.py).

The script is:

  def calculate_average(numbers):
      total = 0
      for num in numbers:
          total += num
      return total / len(numbers)  # Bug: Division by zero when list is empty

  def main():
      data = []  # Empty list will cause division by zero
      result = calculate_average(data)
      print(f"Average: {result}")

We embed Python numeric values as a tagged type (int or float), with float
values modelled as exact rationals.  True division `/` always produces a
float and raises ZeroDivisionError when the divisor is zero, as in Python.
The `for` loop is embedded as a small-step state machine so that we can
state that the input list is never modified by the loop.
-/

/-- A Python numeric value: either an int, or a float.  Float values are
modelled as exact rationals (exact for the integer inputs used by the
script, where no rounding occurs). -/
inductive PyNum where
  | intVal : ℤ → PyNum
  | floatVal : ℚ → PyNum
deriving DecidableEq, Repr

/-- The one error kind the program can raise: ZeroDivisionError. -/
inductive PyErr where
  | zeroDivisionError : PyErr
deriving DecidableEq, Repr

/-- The numeric value of a Python number, as an exact rational. -/
def PyNum.toRat : PyNum → ℚ
  | intVal n => (n : ℚ)
  | floatVal q => q

/-- Python `+` on numbers: int + int is an int; if either operand is a
float the result is a float. -/
def PyNum.add : PyNum → PyNum → PyNum
  | intVal a, intVal b => intVal (a + b)
  | intVal a, floatVal b => floatVal ((a : ℚ) + b)
  | floatVal a, intVal b => floatVal (a + (b : ℚ))
  | floatVal a, floatVal b => floatVal (a + b)

/-- Python true division `x / y`: always returns a float on success, and
raises ZeroDivisionError when the divisor is zero. -/
def PyNum.truediv (x y : PyNum) : Except PyErr PyNum :=
  if y.toRat = 0 then Except.error PyErr.zeroDivisionError
  else Except.ok (PyNum.floatVal (x.toRat / y.toRat))

/-- State of the `for num in numbers:` loop in calculate_average: the list
object `numbers` bound in the frame, the part of it the iterator has not
yet yielded, and the accumulator variable `total`. -/
structure LoopState where
  numbers : List PyNum
  rest : List PyNum
  total : PyNum
deriving DecidableEq, Repr

/-- One iteration of the loop `for num in numbers: total += num`: the
iterator yields the next element and `total` is updated; when the iterator
is exhausted the state is unchanged. -/
def loop_step : LoopState → LoopState
  | ⟨numbers, [], total⟩ => ⟨numbers, [], total⟩
  | ⟨numbers, num :: rest, total⟩ => ⟨numbers, rest, total.add num⟩

/-- Iterate the loop body a given number of times. -/
def loop_iter : Nat → LoopState → LoopState
  | 0, s => s
  | n + 1, s => loop_iter n (loop_step s)

/-- Run the loop to completion: one step per element still to be
yielded. -/
def run_loop (s : LoopState) : LoopState := loop_iter s.rest.length s

/-- Embedding of `calculate_average`: seed `total = 0` (the int 0, as in
the source), run the loop over the elements, then return
`total / len(numbers)` via Python true division, which raises
ZeroDivisionError when `len(numbers)` is zero. -/
def calculate_average (numbers : List PyNum) : Except PyErr PyNum :=
  let final := run_loop ⟨numbers, numbers, PyNum.intVal 0⟩
  PyNum.truediv final.total (PyNum.intVal final.numbers.length)

/-- Default string rendering of a Python number, as used by the f-string
`f"Average: {result}"`: a float always renders with a decimal point. -/
def PyNum.str : PyNum → String
  | intVal n => toString n
  | floatVal q => if q.den = 1 then toString q.num ++ ".0" else toString q

/-- Outcome of one process run: it either completes normally (exit code 0)
or crashes on an uncaught error (non-zero exit code); in both cases we
record the lines written to standard output. -/
inductive ProcResult where
  | completed : List String → ProcResult
  | crashed : PyErr → List String → ProcResult
deriving DecidableEq, Repr

/-- Lines the run wrote to standard output. -/
def ProcResult.stdout : ProcResult → List String
  | completed lines => lines
  | crashed _ lines => lines

/-- Process exit code: 0 on normal completion, non-zero on a crash. -/
def ProcResult.exit_code : ProcResult → Nat
  | completed _ => 0
  | crashed _ _ => 1

/-- Embedding of `main` parametrised by the input list: call
calculate_average, and on success print the single line
`Average: <result>`; an error is not caught and crashes the process with
nothing printed, since the print comes after the call. -/
def run_program (data : List PyNum) : ProcResult :=
  match calculate_average data with
  | Except.ok result => ProcResult.completed ["Average: " ++ result.str]
  | Except.error e => ProcResult.crashed e []

/-- The fixed input of `main`: `data = []`. -/
def data : List PyNum := []

/-- Embedding of running the script end to end: the source's `main()` on
its fixed empty input (named `main_run` here because `main` is reserved). -/
def main_run : ProcResult := run_program data

-- ### Basic lemmas about the loop

/-- Running the loop consumes the iterator and folds Python addition over
the yielded elements; the `numbers` binding is untouched. -/
theorem run_loop_eq (s : LoopState) :
    run_loop s = ⟨s.numbers, [], s.rest.foldl PyNum.add s.total⟩ := by
  obtain ⟨numbers, rest, total⟩ := s
  induction rest generalizing total with
  | nil => rfl
  | cons n tl ih => simpa [run_loop, loop_iter, loop_step] using ih (total.add n)

/-- The loop never changes the `numbers` binding. -/
theorem run_loop_numbers (s : LoopState) : (run_loop s).numbers = s.numbers := by
  rw [run_loop_eq]

/-- After the loop, `total` is the left fold of Python addition over the
remaining elements. -/
theorem run_loop_total (s : LoopState) :
    (run_loop s).total = s.rest.foldl PyNum.add s.total := by
  rw [run_loop_eq]

/-- Python addition agrees with rational addition on values. -/
theorem PyNum.toRat_add (x y : PyNum) : (x.add y).toRat = x.toRat + y.toRat := by
  cases x <;> cases y <;> simp [PyNum.add, PyNum.toRat]

/-- The value of a fold of Python additions is the seed plus the sum of
the element values. -/
theorem foldl_add_toRat (l : List PyNum) (a : PyNum) :
    (l.foldl PyNum.add a).toRat = a.toRat + (l.map PyNum.toRat).sum := by
  induction l generalizing a with
  | nil => simp
  | cons n tl ih =>
      simp only [List.foldl_cons, List.map_cons, List.sum_cons, ih, PyNum.toRat_add]
      ring

/-- calculate_average unfolded: it is `truediv` of the folded total by the
length. -/
theorem calculate_average_eq (numbers : List PyNum) :
    calculate_average numbers =
      PyNum.truediv (numbers.foldl PyNum.add (PyNum.intVal 0))
        (PyNum.intVal numbers.length) := by
  simp only [calculate_average, run_loop_total, run_loop_numbers]

/-- Value of an int, unfolded. -/
theorem PyNum.toRat_intVal (n : ℤ) : (PyNum.intVal n).toRat = (n : ℚ) := rfl

/-- Value of a float, unfolded. -/
theorem PyNum.toRat_floatVal (q : ℚ) : (PyNum.floatVal q).toRat = q := rfl

/-- General success lemma: on any non-empty list, calculate_average
returns the float sum / length. -/
theorem calculate_average_of_ne_nil (S : List PyNum) (h : S ≠ []) :
    calculate_average S =
      Except.ok (PyNum.floatVal ((S.map PyNum.toRat).sum / (S.length : ℚ))) := by
  rw [calculate_average_eq]
  simp [PyNum.truediv, PyNum.toRat_intVal, foldl_add_toRat, h]

/-- On the empty list, calculate_average raises ZeroDivisionError at the
division step. -/
theorem calculate_average_nil :
    calculate_average ([] : List PyNum) = Except.error PyErr.zeroDivisionError := by
  simp [calculate_average, run_loop, loop_iter, PyNum.truediv, PyNum.toRat]

/-- Concrete run: the average of [5] is the float 5. -/
theorem calculate_average_five :
    calculate_average [PyNum.intVal 5] = Except.ok (PyNum.floatVal 5) := by
  rw [calculate_average_eq]
  simp [PyNum.truediv, PyNum.toRat, PyNum.add]

-- ### The claims

/-- C1: for every non-empty sequence S of numbers, calculate_average S
equals sum(S) / len(S): the sum is accumulated in a single forward pass
seeded with zero and divided by the element count, with exact equality in
the model's numeric type. -/
theorem calculate_average_spec (S : List PyNum) (h : S ≠ []) :
    calculate_average S =
      Except.ok (PyNum.floatVal ((S.map PyNum.toRat).sum / (S.length : ℚ))) :=
  calculate_average_of_ne_nil S h

/-- Witness for C1 at the concrete input [5]. -/
theorem calculate_average_spec_witness :
    calculate_average [PyNum.intVal 5] =
      Except.ok (PyNum.floatVal
        (([PyNum.intVal 5].map PyNum.toRat).sum / ([PyNum.intVal 5].length : ℚ))) :=
  calculate_average_spec [PyNum.intVal 5] (by simp)

/-- C2: calculate_average on the empty sequence raises ZeroDivisionError
at the division step; it never returns any value (so in particular not 0
or NaN) without signalling failure. -/
theorem calculate_average_empty :
    calculate_average ([] : List PyNum) = Except.error PyErr.zeroDivisionError ∧
    ∀ v : PyNum, calculate_average ([] : List PyNum) ≠ Except.ok v := by
  refine ⟨calculate_average_nil, fun v hv => ?_⟩
  rw [calculate_average_nil] at hv
  exact Except.noConfusion hv

/-- C3: the program run end to end with its fixed empty input crashes with
the uncaught ZeroDivisionError rather than completing with a printed
value, and the process exit code is non-zero. -/
theorem main_run_crashes :
    main_run = ProcResult.crashed PyErr.zeroDivisionError [] ∧
    main_run.exit_code ≠ 0 := by
  have h : main_run = ProcResult.crashed PyErr.zeroDivisionError [] := by
    have hc : calculate_average data = Except.error PyErr.zeroDivisionError :=
      calculate_average_nil
    simp [main_run, run_program, hc]
  refine ⟨h, ?_⟩
  rw [h]
  simp [ProcResult.exit_code]

/-- C4: calculate_average is order-independent: it returns the same result
on any permutation of its input. -/
theorem calculate_average_perm (S P : List PyNum) (h : P.Perm S) :
    calculate_average P = calculate_average S := by
  rw [calculate_average_eq, calculate_average_eq]
  have hsum : (P.map PyNum.toRat).sum = (S.map PyNum.toRat).sum :=
    (h.map PyNum.toRat).sum_eq
  have hlen : P.length = S.length := h.length_eq
  have ht : (P.foldl PyNum.add (PyNum.intVal 0)).toRat
      = (S.foldl PyNum.add (PyNum.intVal 0)).toRat := by
    rw [foldl_add_toRat, foldl_add_toRat, hsum]
  simp [PyNum.truediv, hlen, ht]

/-- Witness for C4 at the concrete permutation [2, 1] of [1, 2]. -/
theorem calculate_average_perm_witness :
    calculate_average [PyNum.intVal 2, PyNum.intVal 1] =
      calculate_average [PyNum.intVal 1, PyNum.intVal 2] :=
  calculate_average_perm [PyNum.intVal 1, PyNum.intVal 2]
    [PyNum.intVal 2, PyNum.intVal 1]
    (List.Perm.swap (PyNum.intVal 1) (PyNum.intVal 2) [])

/-- C5: under the intended non-empty precondition, the divisor
len(numbers) is non-zero, so the ZeroDivisionError branch of the division
is unreachable and calculate_average returns a value. -/
theorem calculate_average_nonempty_some (numbers : List PyNum) (h : numbers ≠ []) :
    (PyNum.intVal numbers.length).toRat ≠ 0 ∧
    ∃ v : PyNum, calculate_average numbers = Except.ok v := by
  have h0 : numbers.length ≠ 0 := fun hl => h (List.eq_nil_of_length_eq_zero hl)
  have hlen : ((numbers.length : ℤ) : ℚ) ≠ 0 := by exact_mod_cast h0
  exact ⟨by simpa [PyNum.toRat_intVal] using hlen,
    ⟨_, calculate_average_of_ne_nil numbers h⟩⟩

/-- Witness for C5 at the concrete input [5]. -/
theorem calculate_average_nonempty_some_witness :
    (PyNum.intVal [PyNum.intVal 5].length).toRat ≠ 0 ∧
    ∃ v : PyNum, calculate_average [PyNum.intVal 5] = Except.ok v :=
  calculate_average_nonempty_some [PyNum.intVal 5] (by simp)

/-- C6: the division in calculate_average is real division, not truncating
division: the average of [1, 2] is 1.5. -/
theorem calculate_average_real_division :
    calculate_average [PyNum.intVal 1, PyNum.intVal 2] =
      Except.ok (PyNum.floatVal 1.5) := by
  rw [calculate_average_of_ne_nil _ (by simp)]
  norm_num [PyNum.toRat_intVal]

/-- C7: whenever the Average Calculator succeeds, the program writes
exactly one line to standard output, of the form `Average: <value>` with
the default rendering of the computed mean. -/
theorem run_program_success (d : List PyNum) (v : PyNum)
    (h : calculate_average d = Except.ok v) :
    run_program d = ProcResult.completed ["Average: " ++ v.str] ∧
    (run_program d).stdout = ["Average: " ++ v.str] := by
  have h1 : run_program d = ProcResult.completed ["Average: " ++ v.str] := by
    simp [run_program, h]
  exact ⟨h1, by rw [h1]; rfl⟩

/-- Witness for C7 at the concrete input [5]. -/
theorem run_program_success_witness :
    run_program [PyNum.intVal 5] =
      ProcResult.completed ["Average: " ++ (PyNum.floatVal 5).str] ∧
    (run_program [PyNum.intVal 5]).stdout = ["Average: " ++ (PyNum.floatVal 5).str] :=
  run_program_success [PyNum.intVal 5] (PyNum.floatVal 5) calculate_average_five

/-- C8: calculate_average does not mutate its input: each loop iteration
leaves the `numbers` binding unchanged, and after the whole loop the list
is identical to the input. -/
theorem calculate_average_no_mutation (numbers : List PyNum) :
    (∀ s : LoopState, (loop_step s).numbers = s.numbers) ∧
    (run_loop ⟨numbers, numbers, PyNum.intVal 0⟩).numbers = numbers := by
  refine ⟨fun s => ?_, run_loop_numbers _⟩
  obtain ⟨a, b, c⟩ := s
  cases b <;> rfl

/-- C9: on any non-empty list of ints, calculate_average returns a float
(Python true division always yields a float), even when the count divides
the sum evenly: the average of [2, 4, 6] is the float 4.0, numerically
equal to the int 4 but not an int value. -/
theorem calculate_average_int_returns_float :
    (∀ l : List ℤ, l ≠ [] →
      ∃ q : ℚ, calculate_average (l.map PyNum.intVal) = Except.ok (PyNum.floatVal q)) ∧
    calculate_average [PyNum.intVal 2, PyNum.intVal 4, PyNum.intVal 6] =
      Except.ok (PyNum.floatVal 4) ∧
    (PyNum.floatVal 4).toRat = (PyNum.intVal 4).toRat ∧
    ∀ n : ℤ, PyNum.floatVal 4 ≠ PyNum.intVal n := by
  refine ⟨fun l hl => ?_, ?_, by simp [PyNum.toRat], fun n h => PyNum.noConfusion h⟩
  · have hmap : l.map PyNum.intVal ≠ [] := by
      simpa [List.map_eq_nil_iff] using hl
    exact ⟨_, calculate_average_of_ne_nil _ hmap⟩
  · rw [calculate_average_of_ne_nil _ (by simp)]
    norm_num [PyNum.toRat_intVal]

/-- Witness for C9 at the concrete input [2]. -/
theorem calculate_average_int_returns_float_witness :
    ∃ q : ℚ, calculate_average ([(2 : ℤ)].map PyNum.intVal)
      = Except.ok (PyNum.floatVal q) :=
  calculate_average_int_returns_float.1 [(2 : ℤ)] (by simp)

/-- C10: on the defect path (the fixed empty input) the program writes
nothing to standard output: the error is raised before the print, so the
run produces zero lines of output. -/
theorem main_run_no_output : main_run.stdout = ([] : List String) := by
  have hc : calculate_average data = Except.error PyErr.zeroDivisionError :=
    calculate_average_nil
  simp [main_run, run_program, hc, ProcResult.stdout]
